import Mathlib

/-!
Verification of the OdroidThings JNI shim
(`services/core/jni/com_google_android_things_odroidThingService.cpp`).

The shim is modelled shallowly:

* `Handle` models `sp<IOdroidThings>`: `none` is the null pointer, `some n`
  a live connection identified by `n` (two acquisitions return the *same*
  connection exactly when they return the same `some n`).
* The external HAL's replies (`getService`, the status/byte payloads that
  HIDL calls deliver through result callbacks) are explicit parameters of
  each embedded operation: the C++ lambdas that receive them become pure
  data flowing into the function.
* JNI effects that the claims observe (thread attachment, the static
  call back into `OdroidThingsManager`, the byte buffer handed to a HAL
  method) are returned as explicit data.
* Undefined behaviour is made explicit: dereferencing a null handle and
  indexing a `hidl_vec` out of bounds both have no defined result, so the
  embedding returns `none` (for the null dereference) or the `oob`
  outcome (for the out-of-bounds buffer read) at exactly the program
  points where the C++ has UB.
* `jint` lengths are modelled as `Nat`; bytes as `Nat` values carried
  through unchanged (the shim copies `uint8_t` verbatim).
-/

namespace OdroidThings

/-- Model of `sp<IOdroidThings>`: `none` is the null service pointer. -/
abbrev Handle := Option Nat

/-- HIDL `Result` status delivered by the service's result callbacks.
The shim only ever compares against `Result::OK`. -/
inductive Result where
  | OK : Result
  | ERROR : Result
deriving DecidableEq, Repr

/-- Observable outcome of one `OdroidThingHal::associate()` call:
the static handle it leaves stored, the handle it returns, whether it
invoked `IOdroidThings::getService()`, and whether it logged the
"Unable to get IOdroidThings interface." error. -/
structure AssocResult where
  state : Handle
  ret : Handle
  calledGetService : Bool
  loggedError : Bool
deriving DecidableEq, Repr

/-- `OdroidThingHal::associate()` (lines 63-72): if the stored handle
`s` is null, fetch `getService()` (whose reply is the explicit parameter
`svcRes`), store it, and log if it is still null; in every case return
the stored handle. -/
def associate (s : Handle) (svcRes : Handle) : AssocResult :=
  match s with
  | some h => { state := some h, ret := some h, calledGetService := false, loggedError := false }
  | none => { state := svcRes, ret := svcRes, calledGetService := true, loggedError := svcRes.isNone }

/-- `OdroidThingHal::disassociate()` (lines 59-61): sets the stored
handle to `nullptr`. -/
def disassociate (_ : Handle) : Handle := none

/-- One call into the handle manager, for reasoning about arbitrary call
sequences: an `acquire` records what `getService()` would reply if it
were consulted. -/
inductive HalOp where
  | acquire : Handle → HalOp
  | invalidate : HalOp
deriving DecidableEq, Repr

/-- Whether a `HalOp` is an `acquire`. -/
def HalOp.isAcquire : HalOp → Bool
  | .acquire _ => true
  | .invalidate => false

/-- Run a sequence of handle-manager calls from a stored-handle state;
returns the final stored handle and the handle returned by each
`acquire` in order. -/
def runOps : Handle → List HalOp → Handle × List Handle
  | s, [] => (s, [])
  | s, HalOp.acquire svcRes :: rest =>
      let r := associate s svcRes
      let p := runOps r.state rest
      (p.1, r.ret :: p.2)
  | s, HalOp.invalidate :: rest => runOps (disassociate s) rest

/-- What a buffer-returning JNI method hands back to the managed caller:
either a concrete byte array, or no defined result because the copy loop
read the local `hidl_vec` out of bounds (C++ undefined behaviour). -/
inductive ReadOutcome where
  | bytes : List Nat → ReadOutcome
  | oob : ReadOutcome
deriving DecidableEq, Repr

/-- `readI2cRegBuffer` (lines 242-266). The HIDL call's transport
status is `transportOk` (`ret.isOk()`); when the transport delivered,
the result callback ran with status `svcStatus` and payload `svcBytes`,
and the local `buffer` keeps the payload only when the status is
`Result::OK`. On `ret.isOk()` the copy loop reads `buffer[i]` for
`i < length` (out of bounds whenever `length` exceeds the buffer's
size) and a `length`-element array is returned; otherwise a zero-length
array is returned. A null `hal` handle is dereferenced: no defined
result (`none`). -/
def readI2cRegBuffer (hal : Handle) (_idx _reg : Int) (length : Nat)
    (transportOk : Bool) (svcStatus : Result) (svcBytes : List Nat) :
    Option ReadOutcome :=
  match hal with
  | none => none
  | some _ =>
      let buffer : List Nat :=
        if transportOk ∧ svcStatus = Result.OK then svcBytes else []
      if transportOk then
        if length ≤ buffer.length then some (ReadOutcome.bytes (buffer.take length))
        else some ReadOutcome.oob
      else some (ReadOutcome.bytes [])

/-- `writeI2cRegBuffer` (lines 268-281): copies `length` bytes of the
caller's array `b` into a fresh `hidl_vec writeBuffer(length)` and calls
`hal->i2c_writeRegBuffer(idx, reg, writeBuffer, length)`; the service's
status function is the parameter `svc`. Returns the buffer handed to
the service together with the `jboolean` (`ret == Result::OK`). Reading
`b` past its end, like a null `hal`, has no defined result. -/
def writeI2cRegBuffer (hal : Handle) (idx reg : Int) (b : List Nat) (length : Nat)
    (svc : Int → Int → List Nat → Nat → Result) : Option (List Nat × Bool) :=
  match hal with
  | none => none
  | some _ =>
      if length ≤ b.length then
        let writeBuffer := b.take length
        some (writeBuffer, svc idx reg writeBuffer length = Result.OK)
      else none

/-- `writeUart` (lines 364-378): same marshalling as
`writeI2cRegBuffer`, forwarding to `hal->uart_write(idx, writeBuffer,
length)` and returning its `jint` together with the buffer sent. -/
def writeUart (hal : Handle) (idx : Int) (b : List Nat) (length : Nat)
    (svc : Int → List Nat → Nat → Int) : Option (List Nat × Int) :=
  match hal with
  | none => none
  | some _ =>
      if length ≤ b.length then
        let writeBuffer := b.take length
        some (writeBuffer, svc idx writeBuffer length)
      else none

/-- `writeSpi` (lines 485-497): same marshalling, forwarding to
`hal->spi_write(idx, txBuffer, length)` and returning its `bool`. -/
def writeSpi (hal : Handle) (idx : Int) (b : List Nat) (length : Nat)
    (svc : Int → List Nat → Nat → Bool) : Option (List Nat × Bool) :=
  match hal with
  | none => none
  | some _ =>
      if length ≤ b.length then
        let txBuffer := b.take length
        some (txBuffer, svc idx txBuffer length)
      else none

/-- `readSpi` (lines 426-450): the result callback stores the payload
into `rxBuffer` unconditionally and ignores the `int32_t len` the
service reports (`svcLen`); on `ret.isOk()` the copy loop reads
`rxBuffer[i]` for `i < length` and a `length`-element array is
returned, else a zero-length array. -/
def readSpi (hal : Handle) (_idx : Int) (length : Nat)
    (transportOk : Bool) (_svcLen : Int) (svcBytes : List Nat) :
    Option ReadOutcome :=
  match hal with
  | none => none
  | some _ =>
      let rxBuffer : List Nat := if transportOk then svcBytes else []
      if transportOk then
        if length ≤ rxBuffer.length then some (ReadOutcome.bytes (rxBuffer.take length))
        else some ReadOutcome.oob
      else some (ReadOutcome.bytes [])

/-- `transferSpi` (lines 452-483): marshals `length` bytes of the
caller's `tx` array into `txBuffer`, calls `hal->spi_transfer`, whose
result callback stores the payload ignoring the reported length, and
returns (buffer sent, outcome built exactly as in `readSpi`). -/
def transferSpi (hal : Handle) (_idx : Int) (tx : List Nat) (length : Nat)
    (transportOk : Bool) (_svcLen : Int) (svcBytes : List Nat) :
    Option (List Nat × ReadOutcome) :=
  match hal with
  | none => none
  | some _ =>
      if length ≤ tx.length then
        let txBuffer := tx.take length
        let rxBuffer : List Nat := if transportOk then svcBytes else []
        if transportOk then
          if length ≤ rxBuffer.length then
            some (txBuffer, ReadOutcome.bytes (rxBuffer.take length))
          else some (txBuffer, ReadOutcome.oob)
        else some (txBuffer, ReadOutcome.bytes [])
      else none

/-- `setGpioDirection` (lines 127-130): acquires the handle and calls
`hal->setDirection(pin, direction)` with no validity check; the value
returned records the arguments forwarded to the service, and a null
handle is dereferenced (no defined result). -/
def setGpioDirection (hal : Handle) (pin direction : Int) : Option (Int × Int) :=
  match hal with
  | none => none
  | some _ => some (pin, direction)

/-- `getGpioValue` (lines 137-141): calls `hal->gpio_getValue(pin)`
(the service's reply is `svc`) with no validity check and returns the
`jboolean`; a null handle is dereferenced (no defined result). -/
def getGpioValue (hal : Handle) (pin : Int) (svc : Int → Bool) : Option Bool :=
  match hal with
  | none => none
  | some _ => some (svc pin)

/-- `unregisterCallback` (lines 199-202): acquires the handle and
forwards the pin straight to `hal->gpio_unregisterCallback(pin)`; the
returned value records the pin forwarded. This layer keeps no
registration table, so no existence check occurs. -/
def unregisterCallback (hal : Handle) (pin : Int) : Option Int :=
  match hal with
  | none => none
  | some _ => some pin

/-- One observable step of `Callback::doCallback` against the managed
runtime: attaching the current thread to the JVM, or invoking a static
void method of a named class with an `int` argument. -/
inductive BridgeAction where
  | attachCurrentThread : BridgeAction
  | callStaticVoid : String → String → Int → BridgeAction
deriving DecidableEq, Repr

/-- The state a `Callback(JNIEnv*, int)` constructor (lines 177-184)
leaves in the bridge: the pin it was constructed for and the
entry point resolved once, ahead of invocation. -/
structure Callback where
  pin : Int
  thingsManagerClass : String
  cb : String
deriving DecidableEq, Repr

/-- `Callback::Callback(JNIEnv*, int)` (lines 177-184): stores the pin
and resolves the single fixed static entry point
`OdroidThingsManager.doCallback(int)`. -/
def mkCallback (pin : Int) : Callback :=
  { pin := pin
    thingsManagerClass := "com/google/android/things/odroid/OdroidThingsManager"
    cb := "doCallback" }

/-- `Callback::doCallback` (lines 186-191): attaches the current
thread, then calls the stored static entry point with the stored pin,
and returns `Void()` — the trace of actions is the whole observable
behaviour, and the return type carries no value and no error. -/
def Callback.run (c : Callback) : List BridgeAction :=
  [BridgeAction.attachCurrentThread,
   BridgeAction.callStaticVoid c.thingsManagerClass c.cb c.pin]

/-- The write-then-read round trip of C5 against a faithful fake
service: the bytes handed over by `writeI2cRegBuffer`'s marshalling are
stored by the fake service, and `readI2cRegBuffer` then reads `n` bytes
back from that store with an OK status over a delivered transport. -/
def i2cRoundTrip (idx reg : Int) (b : List Nat) (n : Nat) : Option ReadOutcome :=
  match writeI2cRegBuffer (some 0) idx reg b n (fun _ _ _ _ => Result.OK) with
  | none => none
  | some (stored, _) => readI2cRegBuffer (some 0) idx reg n true Result.OK stored

end OdroidThings

namespace OdroidThings

/-- C1: with a non-null handle stored by a first `acquire()`, a second
`acquire()` with no intervening `invalidate()` returns the same
underlying connection without calling `getService()` again; and after
`invalidate()` the stored handle is cleared, so the next `acquire()`
calls `getService()` to establish a new connection. -/
theorem acquire_twice_stable_and_invalidate_reconnects
    (s svc1 svc2 svc3 : Handle) (h : Nat)
    (hfirst : (associate s svc1).ret = some h) :
    (associate (associate s svc1).state svc2).ret = some h ∧
    (associate (associate s svc1).state svc2).calledGetService = false ∧
    disassociate (associate s svc1).state = none ∧
    (associate (disassociate (associate s svc1).state) svc3).calledGetService = true := by
  have hstate : (associate s svc1).state = some h := by
    cases s with
    | some x => simpa [associate] using hfirst
    | none => simpa [associate] using hfirst
  refine ⟨?_, ?_, rfl, ?_⟩
  · rw [hstate]; rfl
  · rw [hstate]; rfl
  · rfl

/-- Witness for `acquire_twice_stable_and_invalidate_reconnects` at a
concrete first acquisition. -/
theorem acquire_twice_stable_witness :
    (associate (associate none (some 5)).state (some 9)).ret = some 5 ∧
    (associate (associate none (some 5)).state (some 9)).calledGetService = false ∧
    disassociate (associate none (some 5)).state = none ∧
    (associate (disassociate (associate none (some 5)).state) (some 7)).calledGetService = true :=
  acquire_twice_stable_and_invalidate_reconnects none (some 5) (some 9) (some 7) 5 (by decide)

/-- C2: the code violates the claim. With the transport delivered
(`ret.isOk()`) but the service status callback reporting a non-OK
`Result` and an empty payload, `readI2cRegBuffer` does not return a
zero-length array: it runs the copy loop over the empty local buffer
(an out-of-bounds read) and would hand back a `length`-element array.
Only a transport failure produces the zero-length array. -/
theorem readI2c_failed_status_not_zero_length :
    readI2cRegBuffer (some 0) 3 4 1 true Result.ERROR [] = some ReadOutcome.oob ∧
    readI2cRegBuffer (some 0) 3 4 1 true Result.ERROR [] ≠ some (ReadOutcome.bytes []) ∧
    readI2cRegBuffer (some 0) 3 4 1 false Result.ERROR [] = some (ReadOutcome.bytes []) := by
  decide

/-- C3: a callback bridge constructed for pin `p` invokes, in order,
exactly one thread attachment followed by one call to the single fixed
static entry point `OdroidThingsManager.doCallback`, passing exactly
`p`; the trace is this whole list, so a bridge for another line never
receives this bridge's identifier, and the run returns no value and no
error. -/
theorem doCallback_attaches_then_calls_own_pin (p : Int) :
    (mkCallback p).run =
      [BridgeAction.attachCurrentThread,
       BridgeAction.callStaticVoid
         "com/google/android/things/odroid/OdroidThingsManager" "doCallback" p] := rfl

/-- C4: for every caller array `b` whose length covers the requested
count `n`, the three buffer-write operations hand the service the same
byte sequence of exactly `n` elements, whose `i`-th element equals
`b[i]` for every `i < n`. -/
theorem write_marshalling_exact (h : Nat) (idx reg : Int) (b : List Nat) (n : Nat)
    (svc1 : Int → Int → List Nat → Nat → Result) (svc2 : Int → List Nat → Nat → Int)
    (svc3 : Int → List Nat → Nat → Bool) (hn : n ≤ b.length) :
    ∃ sent : List Nat,
      (writeI2cRegBuffer (some h) idx reg b n svc1).map Prod.fst = some sent ∧
      (writeUart (some h) idx b n svc2).map Prod.fst = some sent ∧
      (writeSpi (some h) idx b n svc3).map Prod.fst = some sent ∧
      sent.length = n ∧
      ∀ i, i < n → sent.getD i 0 = b.getD i 0 := by
  refine ⟨b.take n, ?_, ?_, ?_, ?_, ?_⟩
  · simp [writeI2cRegBuffer, hn]
  · simp [writeUart, hn]
  · simp [writeSpi, hn]
  · simp [List.length_take, Nat.min_eq_left hn]
  · intro i hi
    simp [List.getD, List.getElem?_take, hi]

/-- Witness for `write_marshalling_exact` on a concrete array. -/
theorem write_marshalling_exact_witness :
    ∃ sent : List Nat,
      (writeI2cRegBuffer (some 0) 1 2 [10, 20, 30] 2 (fun _ _ _ _ => Result.OK)).map
          Prod.fst = some sent ∧
      (writeUart (some 0) 1 [10, 20, 30] 2 (fun _ _ _ => 0)).map Prod.fst = some sent ∧
      (writeSpi (some 0) 1 [10, 20, 30] 2 (fun _ _ _ => true)).map Prod.fst = some sent ∧
      sent.length = 2 ∧
      ∀ i, i < 2 → sent.getD i 0 = List.getD [10, 20, 30] i 0 :=
  write_marshalling_exact 0 1 2 [10, 20, 30] 2 (fun _ _ _ _ => Result.OK)
    (fun _ _ _ => 0) (fun _ _ _ => true) (by decide)

/-- C5: writing a byte sequence `b` of length `n` through the write
marshalling to a service that stores the received bytes and then
reading `n` bytes back through the read marshalling yields exactly
`b`. -/
theorem i2c_write_then_read_roundtrip (idx reg : Int) (b : List Nat) (n : Nat)
    (hb : b.length = n) :
    i2cRoundTrip idx reg b n = some (ReadOutcome.bytes b) := by
  have hn : n ≤ b.length := hb.ge
  simp [i2cRoundTrip, writeI2cRegBuffer, readI2cRegBuffer, hn, ← hb, List.take_length]

/-- Witness for `i2c_write_then_read_roundtrip` on a concrete
sequence. -/
theorem i2c_write_then_read_roundtrip_witness :
    i2cRoundTrip 0 0 [3, 1, 2] 3 = some (ReadOutcome.bytes [3, 1, 2]) :=
  i2c_write_then_read_roundtrip 0 0 [3, 1, 2] 3 (by decide)

/-- C6: when `associate()` has produced the null handle, every
marshalling operation still dereferences it to invoke a service method
— none of them checks validity or returns early, so none of them has a
defined result on the null handle. -/
theorem null_handle_always_dereferenced (pin direction idx reg slen : Int) (n : Nat)
    (tOk : Bool) (st : Result) (bs tx : List Nat) (svcB : Int → Bool)
    (svc1 : Int → Int → List Nat → Nat → Result) (svc2 : Int → List Nat → Nat → Int)
    (svc3 : Int → List Nat → Nat → Bool) :
    setGpioDirection none pin direction = none ∧
    getGpioValue none pin svcB = none ∧
    readI2cRegBuffer none idx reg n tOk st bs = none ∧
    writeI2cRegBuffer none idx reg bs n svc1 = none ∧
    writeUart none idx bs n svc2 = none ∧
    writeSpi none idx bs n svc3 = none ∧
    readSpi none idx n tOk slen bs = none ∧
    transferSpi none idx tx n tOk slen bs = none ∧
    unregisterCallback none pin = none :=
  ⟨rfl, rfl, rfl, rfl, rfl, rfl, rfl, rfl, rfl⟩

/-- C7: when establishing the connection fails (`getService()` returns
null while nothing is stored), `associate()` logs the failure and
returns the null handle; in general it always returns exactly the
handle it stores, and over every sequence of acquire/invalidate calls
every single acquire produces a returned handle — there is no error or
abort path. -/
theorem acquire_failure_logs_and_never_aborts :
    (associate none none).ret = none ∧
    (associate none none).loggedError = true ∧
    (∀ s svc, (associate s svc).ret = (associate s svc).state) ∧
    (∀ init ops, ((runOps init ops).2).length = (ops.filter HalOp.isAcquire).length) := by
  refine ⟨rfl, rfl, ?_, ?_⟩
  · intro s svc
    cases s <;> rfl
  · intro init ops
    induction ops generalizing init with
    | nil => rfl
    | cons op rest ih =>
        cases op with
        | acquire svcRes => simp [runOps, HalOp.isAcquire, List.filter_cons, ih]
        | invalidate => simp [runOps, HalOp.isAcquire, List.filter_cons, ih]

/-- C8: `unregisterCallback` keeps no registration table at this layer,
performs no existence check, and for every pin unconditionally forwards
exactly that pin to the service's unregister operation, raising no
error — so unregistering a never-registered line is a harmless no-op
here. -/
theorem unregister_unconditionally_forwards (h : Nat) (pin : Int) :
    unregisterCallback (some h) pin = some pin := rfl

/-- C9 counterexample: the claim that every copy-loop access is in
bounds fails — with the transport delivered, a non-OK service status
(leaving the local buffer empty) and a requested length of 2, the loop
reads the empty buffer out of bounds. -/
theorem readI2c_copy_oob_counterexample :
    readI2cRegBuffer (some 0) 0 0 2 true Result.ERROR [9] = some ReadOutcome.oob := by
  decide

/-- C9 amended: whenever the transport call succeeds the copy loop does
access indices `0` to `length - 1` of the local buffer, but those
accesses are in bounds only when the buffer holds at least `length`
elements: with a non-OK service status (empty buffer) and positive
`length` the read is out of bounds, while with an OK status and a
payload of at least `length` bytes it is not. -/
theorem readI2c_copy_bounds (h : Nat) (idx reg : Int) (n : Nat) (st : Result)
    (bs : List Nat) :
    (0 < n → st ≠ Result.OK → readI2cRegBuffer (some h) idx reg n true st bs =
      some ReadOutcome.oob) ∧
    (n ≤ bs.length → readI2cRegBuffer (some h) idx reg n true Result.OK bs ≠
      some ReadOutcome.oob) := by
  constructor
  · intro hn hst
    simp [readI2cRegBuffer, hst, Nat.not_le.mpr hn]
  · intro hb
    simp [readI2cRegBuffer, hb]

/-- Witness for `readI2c_copy_bounds` at a concrete length, status and
payload. -/
theorem readI2c_copy_bounds_witness :
    readI2cRegBuffer (some 0) 0 0 1 true Result.ERROR [5] = some ReadOutcome.oob ∧
    readI2cRegBuffer (some 0) 0 0 1 true Result.OK [5] ≠ some ReadOutcome.oob :=
  ⟨(readI2c_copy_bounds 0 0 0 1 Result.ERROR [5]).1 (by decide) (by decide),
   (readI2c_copy_bounds 0 0 0 1 Result.ERROR [5]).2 (by decide)⟩

/-- C10: `readSpi` and `transferSpi` ignore the length value the
service reports in its result callback — changing the reported length
never changes the result — and whenever the transport call succeeds
(and the copy is in bounds) they return a byte array of exactly the
caller-requested length. -/
theorem spi_read_length_from_caller (h : Nat) (idx : Int) (n : Nat) (l1 l2 slen : Int)
    (bs tx : List Nat) (hb : n ≤ bs.length) (ht : n ≤ tx.length) :
    (∀ tOk, readSpi (some h) idx n tOk l1 bs = readSpi (some h) idx n tOk l2 bs) ∧
    (∀ tOk, transferSpi (some h) idx tx n tOk l1 bs =
      transferSpi (some h) idx tx n tOk l2 bs) ∧
    (∃ out, readSpi (some h) idx n true slen bs = some (ReadOutcome.bytes out) ∧
      out.length = n) ∧
    (∃ sent out, transferSpi (some h) idx tx n true slen bs =
      some (sent, ReadOutcome.bytes out) ∧ out.length = n) := by
  refine ⟨fun _ => rfl, fun _ => rfl, ⟨bs.take n, ?_, ?_⟩,
    ⟨tx.take n, bs.take n, ?_, ?_⟩⟩
  · simp [readSpi, hb]
  · simp [List.length_take, Nat.min_eq_left hb]
  · simp [transferSpi, hb, ht]
  · simp [List.length_take, Nat.min_eq_left hb]

/-- Witness for `spi_read_length_from_caller` at concrete payloads and
two different reported lengths. -/
theorem spi_read_length_from_caller_witness :
    (∀ tOk, readSpi (some 0) 0 1 tOk 5 [1, 2] = readSpi (some 0) 0 1 tOk 9 [1, 2]) ∧
    (∀ tOk, transferSpi (some 0) 0 [3] 1 tOk 5 [1, 2] =
      transferSpi (some 0) 0 [3] 1 tOk 9 [1, 2]) ∧
    (∃ out, readSpi (some 0) 0 1 true 7 [1, 2] = some (ReadOutcome.bytes out) ∧
      out.length = 1) ∧
    (∃ sent out, transferSpi (some 0) 0 [3] 1 true 7 [1, 2] =
      some (sent, ReadOutcome.bytes out) ∧ out.length = 1) :=
  spi_read_length_from_caller 0 0 1 5 9 7 [1, 2] [3] (by decide) (by decide)

end OdroidThings
